import Mathlib

/-!
Verification of a minimal blockchain core (`src/block.rs`) and a
result type (`src/mresult.rs`).

The embedding mirrors the Rust source: `LinkedList` becomes `List`
(front = head, `push_back` = append at the end, `push_front` = cons),
`HashMap<String, TxOut>` becomes an association list with
overwrite-on-insert semantics, machine integers become `Nat` (no claim
touches overflow), and SHA-256 is implemented concretely so hash
strings evaluate.
-/

/-! SHA-256 (FIPS 180-4), over lists of bytes represented as `Nat < 256`. -/

/-- Truncate to a 32-bit word. -/
def w32 (n : Nat) : Nat := n % 4294967296

/-- Right-rotate a 32-bit word by `n` places. -/
def rotr32 (x n : Nat) : Nat := w32 ((x >>> n) ||| (x <<< (32 - n)))

/-- Small sigma-0 of the SHA-256 message schedule. -/
def ssig0 (x : Nat) : Nat := (rotr32 x 7) ^^^ (rotr32 x 18) ^^^ (x >>> 3)

/-- Small sigma-1 of the SHA-256 message schedule. -/
def ssig1 (x : Nat) : Nat := (rotr32 x 17) ^^^ (rotr32 x 19) ^^^ (x >>> 10)

/-- Big sigma-0 of the SHA-256 compression function. -/
def bsig0 (x : Nat) : Nat := (rotr32 x 2) ^^^ (rotr32 x 13) ^^^ (rotr32 x 22)

/-- Big sigma-1 of the SHA-256 compression function. -/
def bsig1 (x : Nat) : Nat := (rotr32 x 6) ^^^ (rotr32 x 11) ^^^ (rotr32 x 25)

/-- SHA-256 choice function. -/
def chV (x y z : Nat) : Nat := (x &&& y) ^^^ ((x ^^^ 4294967295) &&& z)

/-- SHA-256 majority function. -/
def majV (x y z : Nat) : Nat := (x &&& y) ^^^ (x &&& z) ^^^ (y &&& z)

/-- The 64 SHA-256 round constants. -/
def sha256K : List Nat :=
  [1116352408, 1899447441, 3049323471, 3921009573, 961987163,
   1508970993, 2453635748, 2870763221, 3624381080, 310598401,
   607225278, 1426881987, 1925078388, 2162078206, 2614888103,
   3248222580, 3835390401, 4022224774, 264347078, 604807628,
   770255983, 1249150122, 1555081692, 1996064986, 2554220882,
   2821834349, 2952996808, 3210313671, 3336571891, 3584528711,
   113926993, 338241895, 666307205, 773529912, 1294757372,
   1396182291, 1695183700, 1986661051, 2177026350, 2456956037,
   2730485921, 2820302411, 3259730800, 3345764771, 3516065817,
   3600352804, 4094571909, 275423344, 430227734, 506948616,
   659060556, 883997877, 958139571, 1322822218, 1537002063,
   1747873779, 1955562222, 2024104815, 2227730452, 2361852424,
   2428436474, 2756734187, 3204031479, 3329325298]

/-- The SHA-256 initial hash value. -/
def sha256init : List Nat :=
  [1779033703, 3144134277, 1013904242, 2773480762, 1359893119,
   2600822924, 528734635, 1541459225]

/-- A `Nat` as eight big-endian bytes (the padded bit-length field). -/
def be8 (n : Nat) : List Nat :=
  [n / 72057594037927936 % 256, n / 281474976710656 % 256, n / 1099511627776 % 256,
   n / 4294967296 % 256, n / 16777216 % 256, n / 65536 % 256, n / 256 % 256, n % 256]

/-- SHA-256 padding: append `0x80`, zeros to 56 mod 64, then the bit length. -/
def sha256pad (m : List Nat) : List Nat :=
  m ++ [128] ++ List.replicate ((64 - (m.length + 9) % 64) % 64) 0 ++ be8 (8 * m.length)

/-- Split into `n` chunks of 64 bytes. -/
def chunksN : Nat → List Nat → List (List Nat)
  | 0, _ => []
  | n + 1, l => l.take 64 :: chunksN n (l.drop 64)

/-- Split a padded message into its 64-byte chunks. -/
def chunks64 (l : List Nat) : List (List Nat) := chunksN (l.length / 64) l

/-- Four big-endian bytes at a time into 32-bit words. -/
def beWords : List Nat → List Nat
  | a :: b :: c :: d :: rest => (((a * 256 + b) * 256 + c) * 256 + d) :: beWords rest
  | _ => []

/-- Extend the message schedule by `n` further words. -/
def extendSched : Nat → List Nat → List Nat
  | 0, w => w
  | n + 1, w =>
      let i := w.length
      extendSched n (w ++
        [w32 (ssig1 (w.getD (i - 2) 0) + w.getD (i - 7) 0 +
              ssig0 (w.getD (i - 15) 0) + w.getD (i - 16) 0)])

/-- The 64-word message schedule of one chunk. -/
def sched (chunk : List Nat) : List Nat := extendSched 48 (beWords chunk)

/-- One SHA-256 round on the eight-word working state. -/
def roundStep (kw : Nat × Nat) (s : List Nat) : List Nat :=
  match s with
  | [a, b, c, d, e, f, g, h] =>
      let t1 := w32 (h + bsig1 e + chV e f g + kw.1 + kw.2)
      let t2 := w32 (bsig0 a + majV a b c)
      [w32 (t1 + t2), a, b, c, w32 (d + t1), e, f, g]
  | s => s

/-- Compress one 64-byte chunk into the running hash state. -/
def sha256compress (H : List Nat) (chunk : List Nat) : List Nat :=
  let s := (List.zip sha256K (sched chunk)).foldl (fun st kw => roundStep kw st) H
  (List.zip H s).map (fun p => w32 (p.1 + p.2))

/-- A 32-bit word as four big-endian bytes. -/
def wordBE4 (n : Nat) : List Nat :=
  [n / 16777216 % 256, n / 65536 % 256, n / 256 % 256, n % 256]

/-- The 32-byte SHA-256 digest of a byte list. -/
def sha256bytes (m : List Nat) : List Nat :=
  (((chunks64 (sha256pad m)).foldl sha256compress sha256init).map wordBE4).flatten

/-- One lowercase hex digit. -/
def hexChar (n : Nat) : Char := if n < 10 then Char.ofNat (48 + n) else Char.ofNat (87 + n)

/-- A byte as two lowercase hex digits. -/
def hexByte (n : Nat) : List Char := [hexChar (n / 16), hexChar (n % 16)]

/-- Lowercase hex encoding of a byte list (Rust's `hex::encode`). -/
def hexEncode (bs : List Nat) : String := String.mk ((bs.map hexByte).flatten)

/-- The lowercase-hex SHA-256 digest of a byte list; the shape every hash in
the source takes: `hex::encode(hasher.finalize())`. -/
def sha256hex (m : List Nat) : String := hexEncode (sha256bytes m)

/-- UTF-8 bytes of one character, as Rust feeds string slices to the hasher. -/
def charBytes (c : Char) : List Nat :=
  let n := c.toNat
  if n < 128 then [n]
  else if n < 2048 then [192 + n / 64, 128 + n % 64]
  else if n < 65536 then [224 + n / 4096, 128 + (n / 64) % 64, 128 + n % 64]
  else [240 + n / 262144, 128 + (n / 4096) % 64, 128 + (n / 64) % 64, 128 + n % 64]

/-- UTF-8 bytes of a string. -/
def strBytes (s : String) : List Nat := (s.data.map charBytes).flatten

/-! Data model of `src/block.rs`. -/

/-- Rust `TxOut`: a spendable output — `{ public_address, satoshis }`. -/
structure TxOut where
  public_address : String
  satoshis : Nat
deriving DecidableEq, Repr

/-- Rust `TxOut::new`. -/
def TxOut.new (public_address : String) (satoshis : Nat) : TxOut :=
  { public_address, satoshis }

/-- Rust `TxIn`: a reference to a previous output — `{ prev_txid, out, signature }`. -/
structure TxIn where
  prev_txid : String
  out : Nat
  signature : String
deriving DecidableEq, Repr

/-- Rust `TxIn::new`. -/
def TxIn.new (prev_txid : String) (out : Nat) (signature : String) : TxIn :=
  { prev_txid, out, signature }

/-- Rust `Transaction`: inputs, outputs and a stored id string. -/
structure Transaction where
  inputs : List TxIn
  outputs : List TxOut
  txid : String
deriving DecidableEq, Repr

/-- Rust `Transaction::calculate_txid`: SHA-256 over each input's
`prev_txid`, `out.to_string()`, `signature`, then each output's
`public_address`, `satoshis.to_string()`, in sequence order. -/
def Transaction.calculate_txid (t : Transaction) : String :=
  sha256hex
    ((t.inputs.map (fun i =>
        strBytes i.prev_txid ++ strBytes (toString i.out) ++ strBytes i.signature)).flatten
     ++ (t.outputs.map (fun o =>
        strBytes o.public_address ++ strBytes (toString o.satoshis))).flatten)

/-- Rust `Transaction::new`: stores the inputs and outputs, then assigns
`txid := calculate_txid`. -/
def Transaction.new (inputs : List TxIn) (outputs : List TxOut) : Transaction :=
  let tx : Transaction := { inputs, outputs, txid := "" }
  { tx with txid := tx.calculate_txid }

/-- Rust `Block`: stored hash, height, transactions (front = most recently
added), previous hash, nonce. -/
structure Block where
  hash : String
  height : Nat
  transactions : List Transaction
  prev_hash : String
  nonce : Nat
deriving DecidableEq, Repr

/-- Rust `Block::new`: empty hash, height 0, no transactions, nonce 0. -/
def Block.new (prev_hash : String) : Block :=
  { hash := "", height := 0, transactions := [], prev_hash, nonce := 0 }

/-- Rust `Block::calculate_hash`: SHA-256 over `height.to_string()`,
`prev_hash`, `nonce.to_string()`. -/
def Block.calculate_hash (b : Block) : String :=
  sha256hex (strBytes (toString b.height) ++ strBytes b.prev_hash ++ strBytes (toString b.nonce))

/-- Rust `Block::add_transaction`: `push_front` the transaction, then store
the recomputed hash. -/
def Block.add_transaction (b : Block) (tx : Transaction) : Block :=
  let b' := { b with transactions := tx :: b.transactions }
  { b' with hash := b'.calculate_hash }

/-- Rust `Block::get_transaction`: first transaction whose stored id matches. -/
def Block.get_transaction (b : Block) (txid : String) : Option Transaction :=
  b.transactions.find? (fun tx => tx.txid == txid)

/-- The UTXO map `HashMap<String, TxOut>` as an association list with at
most one entry per key. `HashMap::remove`. -/
def utxoRemove (m : List (String × TxOut)) (k : String) : List (String × TxOut) :=
  m.filter (fun e => e.1 != k)

/-- Rust `HashMap::insert`: overwrite any entry at the key. -/
def utxoInsert (m : List (String × TxOut)) (k : String) (v : TxOut) : List (String × TxOut) :=
  utxoRemove m k ++ [(k, v)]

/-- Rust `HashMap::get`: the entry at the key, if any. -/
def utxoGet (m : List (String × TxOut)) (k : String) : Option TxOut :=
  (m.find? (fun e => e.1 == k)).map (fun e => e.2)

/-- Rust `BlockChain`: block list (front = oldest), height counter, UTXO set. -/
structure BlockChain where
  blocks : List Block
  height : Nat
  utxo_set : List (String × TxOut)
deriving DecidableEq, Repr

/-- Rust `BlockChain::new`. -/
def BlockChain.new : BlockChain :=
  { blocks := [], height := 0, utxo_set := [] }

/-- Rust `BlockChain::get_block_by_hash`: first block whose stored hash matches. -/
def BlockChain.get_block_by_hash (c : BlockChain) (hash : String) : Option Block :=
  c.blocks.find? (fun b => b.hash == hash)

/-- Rust `BlockChain::is_valid_block`: height 0 is always valid; otherwise
some existing block's hash must equal the candidate's `prev_hash`. -/
def BlockChain.is_valid_block (c : BlockChain) (b : Block) : Bool :=
  if b.height > 0 then (c.get_block_by_hash b.prev_hash).isSome else true

/-- The UTXO effect of one transaction inside `BlockChain::add_block`:
remove the entry at each input's `prev_txid`, then insert every output
under the key `tx.calculate_txid()` (the enumeration index is unused in
the source, so later outputs overwrite earlier ones). -/
def applyTx (m : List (String × TxOut)) (tx : Transaction) : List (String × TxOut) :=
  let m1 := tx.inputs.foldl (fun acc txin => utxoRemove acc txin.prev_txid) m
  tx.outputs.enum.foldl (fun acc p => utxoInsert acc tx.calculate_txid p.2) m1

/-- Rust `BlockChain::add_block`: if the block is valid, update the UTXO set
transaction by transaction, `push_back` the block and bump the height;
otherwise do nothing. -/
def BlockChain.add_block (c : BlockChain) (b : Block) : BlockChain :=
  if c.is_valid_block b then
    { blocks := c.blocks ++ [b],
      height := c.height + 1,
      utxo_set := b.transactions.foldl applyTx c.utxo_set }
  else c

/-- Rust `BlockChain::get_block_by_height`: the `nth` block of the list. -/
def BlockChain.get_block_by_height (c : BlockChain) (height : Nat) : Option Block :=
  c.blocks[height]?

/-- Rust `BlockChain::get_block_count`. -/
def BlockChain.get_block_count (c : BlockChain) : Nat :=
  c.blocks.length

/-- Rust `BlockChain::get_transaction`: scan the blocks in order. -/
def BlockChain.get_transaction (c : BlockChain) (txid : String) : Option Transaction :=
  c.blocks.findSome? (fun b => b.get_transaction txid)

/-- Rust `BlockChain::get_best_block_hash`: stored hash of the back block. -/
def BlockChain.get_best_block_hash (c : BlockChain) : Option String :=
  c.blocks.getLast?.map (fun b => b.hash)

/-! Model of `src/mresult.rs`; `unwrap` and `unwrap_err` panic on the
wrong variant, embedded as `Option`. -/

/-- Rust `MResult<T, E>`. -/
inductive MResult (T E : Type) where
  | Ok : T → MResult T E
  | Err : E → MResult T E
deriving DecidableEq, Repr

/-- Rust `MResult::ok`. -/
def MResult.ok {T E : Type} (value : T) : MResult T E := .Ok value

/-- Rust `MResult::err`. -/
def MResult.err {T E : Type} (error : E) : MResult T E := .Err error

/-- Rust `MResult::is_ok`. -/
def MResult.is_ok {T E : Type} : MResult T E → Bool
  | .Ok _ => true
  | .Err _ => false

/-- Rust `MResult::is_err`. -/
def MResult.is_err {T E : Type} : MResult T E → Bool
  | .Err _ => true
  | .Ok _ => false

/-- Rust `MResult::unwrap`, with the panic on `Err` embedded as `none`. -/
def MResult.unwrap {T E : Type} : MResult T E → Option T
  | .Ok value => some value
  | .Err _ => none

/-- Rust `MResult::unwrap_err`, with the panic on `Ok` embedded as `none`. -/
def MResult.unwrap_err {T E : Type} : MResult T E → Option E
  | .Ok _ => none
  | .Err error => some error

/-! Claims. -/

/-- C2: the validity check accepts a candidate of height 0 regardless of
`prev_hash` (even on an empty chain), and for height above 0 it accepts
exactly when some block already in the chain has a hash field equal to
the candidate's `prev_hash`. -/
theorem is_valid_block_spec (c : BlockChain) (b : Block) :
    (b.height = 0 → c.is_valid_block b = true) ∧
    (0 < b.height → (c.is_valid_block b = true ↔ ∃ blk ∈ c.blocks, blk.hash = b.prev_hash)) := by
  constructor
  · intro h
    simp [BlockChain.is_valid_block, h]
  · intro h
    simp [BlockChain.is_valid_block, BlockChain.get_block_by_hash, h,
      List.find?_isSome, beq_iff_eq]

/-- Witness for C2: a height-0 block is accepted on the empty chain. -/
theorem is_valid_block_spec_witness :
    BlockChain.new.is_valid_block (Block.new "anything") = true :=
  (is_valid_block_spec BlockChain.new (Block.new "anything")).1 rfl

/-- C3: a candidate that fails validation (positive height and no
existing block's hash equals its `prev_hash`) leaves the block list,
the block count, the height counter and the UTXO set unchanged. -/
theorem add_block_invalid_unchanged (c : BlockChain) (b : Block)
    (hb : 0 < b.height) (hn : ∀ blk ∈ c.blocks, blk.hash ≠ b.prev_hash) :
    (c.add_block b).blocks = c.blocks ∧
    (c.add_block b).get_block_count = c.get_block_count ∧
    (c.add_block b).height = c.height ∧
    (c.add_block b).utxo_set = c.utxo_set := by
  have hv : c.is_valid_block b = false := by
    simp only [BlockChain.is_valid_block, BlockChain.get_block_by_hash]
    rw [if_pos hb]
    rw [List.find?_eq_none.mpr (fun x hx => by simpa using hn x hx)]
    rfl
  simp [BlockChain.add_block, hv]

/-- Witness chain for C3: one accepted genesis block. -/
def c3_chain : BlockChain := BlockChain.new.add_block (Block.new "p")

/-- Witness candidate for C3: positive height, unlinked `prev_hash`. -/
def c3_block : Block :=
  { hash := "h2", height := 1, transactions := [], prev_hash := "nonexistent", nonce := 0 }

/-- Witness for C3 at a concrete chain and block. -/
theorem add_block_invalid_unchanged_witness :
    (c3_chain.add_block c3_block).blocks = c3_chain.blocks ∧
    (c3_chain.add_block c3_block).get_block_count = c3_chain.get_block_count ∧
    (c3_chain.add_block c3_block).height = c3_chain.height ∧
    (c3_chain.add_block c3_block).utxo_set = c3_chain.utxo_set :=
  add_block_invalid_unchanged c3_chain c3_block (by decide) (by decide)

/-- C5: on a chain holding exactly the block `b1`, a candidate of
positive height whose `prev_hash` equals `b1`'s stored hash is
accepted: the count becomes 2 and the tip hash becomes the candidate's
stored hash. -/
theorem add_block_linked_accepted (c : BlockChain) (b1 b2 : Block)
    (hc : c.blocks = [b1]) (hp : b2.prev_hash = b1.hash) (hh : 0 < b2.height) :
    (c.add_block b2).get_block_count = 2 ∧
    (c.add_block b2).get_best_block_hash = some b2.hash := by
  have hv : c.is_valid_block b2 = true := by
    simp [BlockChain.is_valid_block, BlockChain.get_block_by_hash, hc, hp, hh]
  simp [BlockChain.add_block, hv, BlockChain.get_block_count,
    BlockChain.get_best_block_hash, hc]

/-- Witness genesis block for C5. -/
def c5_b1 : Block := Block.new "p"

/-- Witness chain for C5: exactly `c5_b1` accepted. -/
def c5_chain : BlockChain := BlockChain.new.add_block c5_b1

/-- Witness linked candidate for C5. -/
def c5_b2 : Block :=
  { hash := "h2", height := 1, transactions := [], prev_hash := c5_b1.hash, nonce := 0 }

/-- Witness for C5 at a concrete chain and blocks. -/
theorem add_block_linked_accepted_witness :
    (c5_chain.add_block c5_b2).get_block_count = 2 ∧
    (c5_chain.add_block c5_b2).get_best_block_hash = some c5_b2.hash :=
  add_block_linked_accepted c5_chain c5_b1 c5_b2 (by decide) rfl (by decide)

/-- C6: the id stored by the transaction constructor equals the id
recomputed from the stored inputs and outputs. -/
theorem txid_recompute_stable (ins : List TxIn) (outs : List TxOut) :
    (Transaction.new ins outs).calculate_txid = (Transaction.new ins outs).txid := rfl

/-- C7: on a freshly constructed chain every query is empty: count 0,
no tip hash, and lookups by hash, height or transaction id all return
`none`, whatever the argument. -/
theorem new_chain_empty_queries (h t : String) (n : Nat) :
    BlockChain.new.get_block_count = 0 ∧
    BlockChain.new.get_best_block_hash = none ∧
    BlockChain.new.get_block_by_hash h = none ∧
    BlockChain.new.get_block_by_height n = none ∧
    BlockChain.new.get_transaction t = none := by
  refine ⟨rfl, rfl, rfl, ?_, rfl⟩
  simp [BlockChain.get_block_by_height, BlockChain.new]

/-- C8: adding a transaction conses it at the front of the block's
transaction list and stores the recomputed hash. -/
theorem add_transaction_spec (b : Block) (tx : Transaction) :
    (b.add_transaction tx).transactions = tx :: b.transactions ∧
    (b.add_transaction tx).hash = (b.add_transaction tx).calculate_hash := ⟨rfl, rfl⟩

/-- C9: on `MResult`, `unwrap` and `unwrap_err` recover the wrapped
value, `is_ok` and `is_err` classify the constructors, and on every
value they return opposite booleans. -/
theorem mresult_spec {T E : Type} (v : T) (e : E) :
    (MResult.ok v : MResult T E).unwrap = some v ∧
    (MResult.err e : MResult T E).unwrap_err = some e ∧
    (MResult.ok v : MResult T E).is_ok = true ∧
    (MResult.ok v : MResult T E).is_err = false ∧
    (MResult.err e : MResult T E).is_err = true ∧
    (MResult.err e : MResult T E).is_ok = false ∧
    ∀ r : MResult T E, r.is_ok = !r.is_err := by
  refine ⟨rfl, rfl, rfl, rfl, rfl, rfl, fun r => ?_⟩
  cases r <;> rfl

/-- Witness for C9 at concrete types and values. -/
theorem mresult_spec_witness :
    (MResult.ok 7 : MResult Nat String).unwrap = some 7 ∧
    (MResult.err "e" : MResult Nat String).unwrap_err = some "e" ∧
    (MResult.ok 7 : MResult Nat String).is_ok = true ∧
    (MResult.ok 7 : MResult Nat String).is_err = false ∧
    (MResult.err "e" : MResult Nat String).is_err = true ∧
    (MResult.err "e" : MResult Nat String).is_ok = false ∧
    ∀ r : MResult Nat String, r.is_ok = !r.is_err :=
  mresult_spec 7 "e"

/-- C10: the tip query returns the stored hash field of the last
appended block; a height-0 block fresh from the constructor is accepted
with its stored hash still the empty string, so the tip query then
returns `some ""`. -/
theorem best_hash_of_fresh_genesis (c : BlockChain) (p : String) :
    (c.add_block (Block.new p)).get_best_block_hash = some (Block.new p).hash ∧
    (Block.new p).hash = "" := by
  refine ⟨?_, rfl⟩
  simp [BlockChain.add_block, BlockChain.is_valid_block, Block.new,
    BlockChain.get_best_block_hash]

/-- C4 counterexample: on a block fresh from the constructor the stored
hash is the empty string while the recomputed hash is a 64-character
digest, so recomputing does not yield the stored hash for every block. -/
theorem block_hash_recompute_fails_on_fresh :
    ¬ ((Block.new "x").calculate_hash = (Block.new "x").hash) := by decide

/-- C4 amended: once `add_transaction` has stored a hash, recomputing
from `(height, prev_hash, nonce)` yields exactly the stored hash, and a
further `add_transaction` (which touches none of those fields) leaves
the recomputed value unchanged. -/
theorem block_hash_recompute_after_add (b : Block) (tx : Transaction) :
    (b.add_transaction tx).calculate_hash = (b.add_transaction tx).hash ∧
    (b.add_transaction tx).calculate_hash = b.calculate_hash := ⟨rfl, rfl⟩

/-- Previously unspent output sitting in the index under key `"txidA"`
(the map is keyed by a bare txid string, not a `(txid, index)` pair). -/
def c1_prev_out : TxOut := TxOut.new "prevaddr" 50

/-- Chain for C1 whose UTXO index holds `c1_prev_out` under `"txidA"`. -/
def c1_chain : BlockChain :=
  { blocks := [], height := 0, utxo_set := [("txidA", c1_prev_out)] }

/-- Transaction for C1: one input spending output 0 of `"txidA"`, two
outputs. -/
def c1_tx : Transaction :=
  Transaction.new [TxIn.new "txidA" 0 "sig"] [TxOut.new "alice" 30, TxOut.new "bob" 20]

/-- Height-0 block for C1 holding exactly `c1_tx`. -/
def c1_block : Block := (Block.new "").add_transaction c1_tx

/-- C1 fails on the code: accepting `c1_block` leaves a UTXO index with
a single entry, keyed by the bare new txid, whose value is the LAST
output — the first output is overwritten, and no `(txid, position)`
keys exist at all. -/
theorem utxo_single_key_overwrite :
    (c1_chain.add_block c1_block).utxo_set = [(c1_tx.calculate_txid, TxOut.new "bob" 20)] ∧
    (c1_chain.add_block c1_block).utxo_set.length = 1 ∧
    utxoGet (c1_chain.add_block c1_block).utxo_set c1_tx.calculate_txid =
      some (TxOut.new "bob" 20) := by decide
